import Mathlib

/-
Shallow embedding of the Dominion engine skeleton
(src/dominion/cards.py, src/dominion/player.py, src/dominion/game.py,
src/dominion/util.py).

Python dictionaries are modelled as insertion-ordered association lists,
Python ints as Lean Int, and a raised Python exception as an
`Except.error` carrying the exception kind.  A Python method whose body
is `pass` is embedded as the identity on the state it could touch.
Attribute lookup on an object is embedded through the explicit list of
attribute names that the class defines in the source: looking up a name
outside that list yields `AttributeError`, exactly as in Python.
-/

namespace Dominion

/-- Python exception kinds that the embedded code can raise. -/
inductive PyError where
  | typeError
  | attributeError
  | keyError
  | zeroDivisionError
deriving DecidableEq, Repr

/-- The concrete ActionCard subclasses defined in src/dominion/cards.py,
plus `base` for a bare ActionCard (whose `effect` is `pass`). -/
inductive ActionKind where
  | base
  | smithy
  | village
  | market
  | cellar
  | moat
  | mine
  | witch
  | laboratory
deriving DecidableEq, Repr

/-- A card, as one of the three concrete Card subclasses in
src/dominion/cards.py: TreasureCard (name, cost, value),
VictoryCard (name, cost, points), ActionCard (subclass, name, cost). -/
inductive Card where
  | treasure : String → Int → Int → Card
  | victory : String → Int → Int → Card
  | action : ActionKind → String → Int → Card
deriving DecidableEq, Repr

/-- `self.name` of a card. -/
def Card.name : Card → String
  | Card.treasure n _ _ => n
  | Card.victory n _ _ => n
  | Card.action _ n _ => n

/-- `self.cost` of a card. -/
def Card.cost : Card → Int
  | Card.treasure _ c _ => c
  | Card.victory _ c _ => c
  | Card.action _ _ c => c

/-- Python `isinstance(card, ActionCard)`. -/
def isActionCard : Card → Bool
  | Card.action _ _ _ => true
  | _ => false

/-- Player state, with the fields of Player.__init__ in
src/dominion/player.py, in source order: name, deck, hand, discard_pile,
actions, money, buys.  The class has no play-area zone. -/
structure Player where
  name : String
  deck : List Card
  hand : List Card
  discard_pile : List Card
  actions : Int
  money : Int
  buys : Int
deriving DecidableEq, Repr

/-- Replace the actions counter of a player. -/
def setActions (p : Player) (a : Int) : Player :=
  ⟨p.name, p.deck, p.hand, p.discard_pile, a, p.money, p.buys⟩

/-- Replace the buys counter of a player. -/
def setBuys (p : Player) (b : Int) : Player :=
  ⟨p.name, p.deck, p.hand, p.discard_pile, p.actions, p.money, b⟩

/-- `player.actions += d`. -/
def addActions (p : Player) (d : Int) : Player :=
  setActions p (p.actions + d)

/-- `player.buys += d`. -/
def addBuys (p : Player) (d : Int) : Player :=
  setBuys p (p.buys + d)

/-- `player.money += d`. -/
def addMoney (p : Player) (d : Int) : Player :=
  ⟨p.name, p.deck, p.hand, p.discard_pile, p.actions, p.money + d, p.buys⟩

/-- Player.draw_card in src/dominion/player.py: its body is `pass`, so
it changes nothing on the player. -/
def draw_card (p : Player) : Player := p

/-- Player.discard_hand: `self.discard_pile.extend(self.hand)` then
`self.hand.clear()`. -/
def discard_hand (p : Player) : Player :=
  ⟨p.name, p.deck, [], p.discard_pile ++ p.hand, p.actions, p.money, p.buys⟩

/-- Player.reset_for_new_turn: actions = 1, money = 0, buys = 1. -/
def reset_for_new_turn (p : Player) : Player :=
  ⟨p.name, p.deck, p.hand, p.discard_pile, 1, 0, 1⟩

/-- The shared supply, `Dict[str, List[Card]]` in Game.__init__,
as an insertion-ordered association list. -/
def Supply : Type := List (String × List Card)

instance : DecidableEq Supply := by
  unfold Supply
  infer_instance

/-- `game.supply[name]` as a lookup that distinguishes a missing key
(Python would raise KeyError there). -/
def supplyLookup : Supply → String → Option (List Card)
  | [], _ => none
  | (k, v) :: rest, n => if k = n then some v else supplyLookup rest n

/-- Replace the pile stored under a key, keeping dict order. -/
def supplyUpdate : Supply → String → List Card → Supply
  | [], _, _ => []
  | (k, v) :: rest, n, pile =>
    if k = n then (k, pile) :: rest else (k, v) :: supplyUpdate rest n pile

/-- The attribute names that class Game in src/dominion/game.py defines:
its three instance fields and its methods.  Python resolves
`game.<name>` against these; any other name raises AttributeError. -/
def gameAttrs : List String :=
  ["players", "supply", "turn",
   "setup_game", "initialize_supply", "deal_starting_deck",
   "play_round", "action_phase", "buy_phase", "cleanup_phase"]

/-- The attribute names that class Player in src/dominion/player.py
defines: its seven instance fields and its methods. -/
def playerAttrs : List String :=
  ["name", "deck", "hand", "discard_pile", "actions", "money", "buys",
   "choose_action_card", "choose_purchase", "buy_card",
   "discard_hand", "reset_for_new_turn", "draw_card", "discard_card"]

/-- Python attribute lookup preceding a method call: if the owner class
does not define the name, the lookup raises AttributeError before any
call happens. -/
def attr_lookup (ownerAttrs : List String) (n : String) : Except PyError Unit :=
  if ownerAttrs.contains n then Except.ok () else Except.error PyError.attributeError

/-- The `effect` methods of the ActionCard subclasses in
src/dominion/cards.py.  `player.draw_card()` appears exactly where the
source calls it (it is a no-op stub, see `draw_card`).  Cellar calls
`player.choose_cards_to_discard()` and Mine calls
`player.choose_treasure_card_to_trash()`, neither of which class Player
defines, so those effects raise AttributeError at that lookup; Witch
performs its two (stub) draws and then calls
`game.get_other_players(...)`, which class Game does not define. -/
def card_effect : ActionKind → Player → Except PyError Player
  | ActionKind.base, p => Except.ok p
  | ActionKind.smithy, p => Except.ok (draw_card (draw_card (draw_card p)))
  | ActionKind.village, p => Except.ok (addActions (draw_card p) 2)
  | ActionKind.market, p =>
      Except.ok (addMoney (addBuys (addActions (draw_card p) 1) 1) 1)
  | ActionKind.cellar, p =>
      (attr_lookup playerAttrs "choose_cards_to_discard").map (fun _ => p)
  | ActionKind.moat, p => Except.ok (draw_card (draw_card p))
  | ActionKind.mine, p =>
      (attr_lookup playerAttrs "choose_treasure_card_to_trash").map (fun _ => p)
  | ActionKind.witch, p =>
      (attr_lookup gameAttrs "get_other_players").map
        (fun _ => draw_card (draw_card p))
  | ActionKind.laboratory, p =>
      Except.ok (addActions (draw_card (draw_card p)) 1)

/-- ActionCard.play (src/dominion/cards.py lines 145-157): if
`player.actions > 0` then `player.actions -= 1` and the subclass effect
runs; otherwise `game.inform_player(...)` is called, and class Game
defines no such attribute, so that branch raises AttributeError. -/
def action_play (k : ActionKind) (p : Player) : Except PyError Player :=
  if p.actions > 0 then
    card_effect k (setActions p (p.actions - 1))
  else
    (attr_lookup gameAttrs "inform_player").map (fun _ => p)

/-- TreasureCard.play (src/dominion/cards.py lines 74-87): it first
evaluates `game.can_play_treasure`, an attribute class Game does not
define, so the lookup raises AttributeError before the guarded
`player.money += self.value` and the `game.log_action(...)` call could
ever run (that continuation is kept for faithfulness to the source text
but is unreachable). -/
def treasure_play (value : Int) (p : Player) : Except PyError Player :=
  (attr_lookup gameAttrs "can_play_treasure").bind (fun _ =>
    (attr_lookup gameAttrs "log_action").map (fun _ => addMoney p value))

/-- Card.play polymorphic dispatch: VictoryCard.play is `pass`. -/
def card_play (c : Card) (p : Player) : Except PyError Player :=
  match c with
  | Card.treasure _ _ v => treasure_play v p
  | Card.victory _ _ _ => Except.ok p
  | Card.action k _ _ => action_play k p

/-- Player.choose_action_card: the first card in hand with
`isinstance(card, ActionCard)`, else None. -/
def choose_action_card (p : Player) : Option Card :=
  p.hand.find? isActionCard

/-- One iteration body of the Game.action_phase while-loop
(src/dominion/game.py lines 61-70), for the case in which a card was
chosen: `action_card.play(player, self)` followed by the phase's own
`player.actions -= 1`. -/
def action_phase_iter (c : Card) (p : Player) : Except PyError Player :=
  (card_play c p).map (fun p1 => setActions p1 (p1.actions - 1))

/-- Game.action_phase: `while player.actions > 0`, choose an action card
from hand; if one is found, play it and decrement actions, else break.
Fuel bounds the number of iterations; `none` means the loop did not
terminate within the given fuel. -/
def action_phase_loop : Nat → Player → Option (Except PyError Player)
  | 0, _ => none
  | Nat.succ fuel, p =>
    if p.actions > 0 then
      match choose_action_card p with
      | some c =>
        match action_phase_iter c p with
        | Except.error e => some (Except.error e)
        | Except.ok p1 => action_phase_loop fuel p1
      | none => some (Except.ok p)
    else some (Except.ok p)

/-- Player.buy_card (src/dominion/player.py lines 30-34):
`if card.cost <= self.money and game.supply[card.name]:` then
`self.money -= card.cost`, `purchased_card = game.supply[card.name].pop()`
(pop removes the LAST element), `self.discard_pile.append(purchased_card)`.
Python evaluates the conjunction left to right, so a card name missing
from the supply dict raises KeyError (modelled as `none`) only when the
cost test passed; when the condition is falsy the method silently does
nothing. -/
def buy_card (p : Player) (c : Card) (s : Supply) : Option (Player × Supply) :=
  if c.cost ≤ p.money then
    match supplyLookup s c.name with
    | none => none
    | some pile =>
      match pile.getLast? with
      | none => some (p, s)
      | some lastc =>
        some (⟨p.name, p.deck, p.hand, p.discard_pile ++ [lastc],
               p.actions, p.money - c.cost, p.buys⟩,
              supplyUpdate s c.name pile.dropLast)
  else some (p, s)

/-- Player.choose_purchase(self, game): the first supply pile, in dict
insertion order, that is nonempty and whose first card is affordable;
returns that first card, else None. -/
def choose_purchase (p : Player) : Supply → Option Card
  | [] => none
  | (_, stack) :: rest =>
    match stack with
    | [] => choose_purchase p rest
    | c :: _ => if c.cost ≤ p.money then some c else choose_purchase p rest

/-- Number of parameters besides `self` in the definition of
Player.choose_purchase (src/dominion/player.py line 23): the single
parameter `game`. -/
def choose_purchase_param_count : Nat := 1

/-- Number of arguments passed at the call `player.choose_purchase()` in
Game.buy_phase (src/dominion/game.py line 76): zero. -/
def buy_phase_call_arg_count : Nat := 0

/-- The call `player.choose_purchase()` as written in Game.buy_phase:
Python raises TypeError when the argument count does not match the
parameter count of the called method. -/
def call_choose_purchase (p : Player) (s : Supply) : Except PyError (Option Card) :=
  if buy_phase_call_arg_count = choose_purchase_param_count then
    Except.ok (choose_purchase p s)
  else
    Except.error PyError.typeError

/-- Game.buy_phase (src/dominion/game.py lines 72-81):
`while player.buys > 0`, call `player.choose_purchase()`; if a purchase
was returned and its supply pile is truthy, `player.buy_card(purchase,
self)` and `player.buys -= 1`, else break.  Fuel bounds the iterations;
with fuel 0 the state is returned as is. -/
def buy_phase_loop : Nat → Player → Supply → Except PyError (Player × Supply)
  | 0, p, s => Except.ok (p, s)
  | Nat.succ fuel, p, s =>
    if p.buys > 0 then
      match call_choose_purchase p s with
      | Except.error e => Except.error e
      | Except.ok none => Except.ok (p, s)
      | Except.ok (some c) =>
        match supplyLookup s c.name with
        | none => Except.error PyError.keyError
        | some pile =>
          if pile = [] then Except.ok (p, s)
          else
            match buy_card p c s with
            | none => Except.error PyError.keyError
            | some (p1, s1) => buy_phase_loop fuel (setBuys p1 (p1.buys - 1)) s1
    else Except.ok (p, s)

/-- Game.buy_phase entry point: each completed iteration decrements
buys, so `buys.toNat + 1` steps of fuel always cover the loop. -/
def buy_phase (p : Player) (s : Supply) : Except PyError (Player × Supply) :=
  buy_phase_loop (p.buys.toNat + 1) p s

/-- Game.cleanup_phase (src/dominion/game.py lines 83-91):
`player.discard_hand()`, five calls of `player.draw_card()`, then
`player.reset_for_new_turn()`. -/
def cleanup_phase (p : Player) : Player :=
  reset_for_new_turn
    (draw_card (draw_card (draw_card (draw_card (draw_card (discard_hand p))))))

/-- A Copper as constructed in Game.initialize_supply and
Game.deal_starting_deck: TreasureCard("Copper", cost=0, value=1). -/
def copperCard : Card := Card.treasure "Copper" 0 1

/-- TreasureCard("Silver", cost=3, value=2). -/
def silverCard : Card := Card.treasure "Silver" 3 2

/-- TreasureCard("Gold", cost=6, value=3). -/
def goldCard : Card := Card.treasure "Gold" 6 3

/-- VictoryCard("Estate", cost=2, points=1) as dealt in
Game.deal_starting_deck. -/
def estateCard : Card := Card.victory "Estate" 2 1

/-- Village(): ActionCard named "Village", cost 3. -/
def villageCard : Card := Card.action ActionKind.village "Village" 3

/-- Smithy(): ActionCard named "Smithy", cost 4. -/
def smithyCard : Card := Card.action ActionKind.smithy "Smithy" 4

/-- The supply built by Game.initialize_supply: 60 Copper, 40 Silver,
30 Gold, and nothing else (the other piles are only a comment in the
source). -/
def starting_supply : Supply :=
  [("Copper", List.replicate 60 copperCard),
   ("Silver", List.replicate 40 silverCard),
   ("Gold", List.replicate 30 goldCard)]

/-- Game.deal_starting_deck: append 7 Copper then 3 Estate to the
player's deck. -/
def deal_starting_deck (p : Player) : Player :=
  ⟨p.name, p.deck ++ List.replicate 7 copperCard ++ List.replicate 3 estateCard,
   p.hand, p.discard_pile, p.actions, p.money, p.buys⟩

/-- Player.__init__(name): empty zones, actions = 1, money = 0,
buys = 1. -/
def mkPlayer (n : String) : Player := ⟨n, [], [], [], 1, 0, 1⟩

/-- The per-player part of Game.setup_game: deal the starting deck, then
`shuffle_deck(player.deck)` (src/dominion/util.py wraps random.shuffle;
the permutation drawn from the random source is passed in as `sh`).
Nothing else of the player is touched: in particular no cards are drawn
to the hand. -/
def setup_player (sh : List Card → List Card) (p : Player) : Player :=
  let q := deal_starting_deck p
  ⟨q.name, sh q.deck, q.hand, q.discard_pile, q.actions, q.money, q.buys⟩

/-- The Game object: fields of Game.__init__ (players, supply, turn). -/
structure Game where
  players : List Player
  supply : Supply
  turn : Int
deriving DecidableEq

/-- Game.setup_game: initialize the supply, then deal and shuffle every
player's starting deck, then set turn = 0. -/
def setup_game (sh : List Card → List Card) (g : Game) : Game :=
  ⟨g.players.map (setup_player sh), starting_supply, 0⟩

/-- Game.play_round (src/dominion/game.py lines 46-59): pick
`players[turn % len(players)]`, run the Action, Buy and Cleanup phases
on that player, then `turn += 1`.  An empty player list would make the
modulus raise ZeroDivisionError.  Fuel bounds the action-phase loop;
`none` means that loop did not finish within the fuel.  The method body
contains no end-of-game test of any kind: no field or return value of
class Game records that the match is over. -/
def play_round (fuel : Nat) (g : Game) : Option (Except PyError Game) :=
  if g.players.length = 0 then some (Except.error PyError.zeroDivisionError)
  else
    let idx := (g.turn % (g.players.length : Int)).toNat
    match g.players.get? idx with
    | none => some (Except.error PyError.zeroDivisionError)
    | some p =>
      match action_phase_loop fuel p with
      | none => none
      | some (Except.error e) => some (Except.error e)
      | some (Except.ok p1) =>
        match buy_phase p1 g.supply with
        | Except.error e => some (Except.error e)
        | Except.ok (p2, s2) =>
          some (Except.ok ⟨g.players.set idx (cleanup_phase p2), s2, g.turn + 1⟩)

/-- A player holding only a Village, with actions = 1 (the situation of
the action-consumption claim). -/
def c1player : Player := ⟨"Alice", [], [villageCard], [], 1, 0, 1⟩

/-- A player about to attempt a purchase with buys = 0 and money = 3. -/
def c2player : Player := ⟨"Eve", [], [], [], 1, 3, 0⟩

/-- A one-pile supply holding a single Silver (cost 3). -/
def c2supply : Supply := [("Silver", [silverCard])]

/-- A player with one card on the deck and an empty hand. -/
def c3player : Player := ⟨"Cleo", [copperCard], [], [], 1, 0, 1⟩

/-- A hand of five cards, as in the spec's Cleanup scenario. -/
def c4hand : List Card :=
  [copperCard, copperCard, copperCard, estateCard, estateCard]

/-- The spec's Cleanup scenario: hand of 5, discard of 2, deck of 1. -/
def c4player : Player :=
  ⟨"Dana", [copperCard], c4hand, [silverCard, silverCard], 0, 3, 0⟩

/-- A player holding only a Smithy, with actions = 1. -/
def c5player : Player := ⟨"Bob", [], [smithyCard], [], 1, 0, 1⟩

/-- The spec's Village scenario: Village in hand, a card on the deck,
actions = 1. -/
def c6player : Player := ⟨"Ann", [copperCard], [villageCard], [], 1, 0, 1⟩

/-- A fresh player with no cards, used for the round-level run. -/
def c7alice : Player := ⟨"Alice", [], [], [], 1, 0, 1⟩

/-- A second fresh player. -/
def c7bob : Player := ⟨"Bob", [], [], [], 1, 0, 1⟩

/-- A supply in which every pile is empty: the spec's strongest
end-of-game situation. -/
def c7emptySupply : Supply := [("Copper", []), ("Silver", []), ("Gold", [])]

/-- A two-player game whose supply is completely exhausted. -/
def c7game : Game := ⟨[c7alice, c7bob], c7emptySupply, 0⟩

/-- The same two players over the untouched starting supply. -/
def c7fullGame : Game := ⟨[c7alice, c7bob], starting_supply, 0⟩

/-- A freshly constructed two-player game before setup_game. -/
def c8game : Game := ⟨["Alice", "Bob"].map mkPlayer, [], 0⟩

/-- A player entering the Buy phase with buys = 1. -/
def c9player : Player := ⟨"Finn", [], [], [], 1, 0, 1⟩

/-- A nonempty supply for the Buy-phase run. -/
def c9supply : Supply := [("Silver", [silverCard])]

/-- Claim C1: the claim says that playing an action card during the
Action Phase consumes exactly one action in total, so that from
actions = a the counter ends at a - 1 plus the effect's grant — for
Village (grant +2) from a = 1 it should end at 2.  In the code,
ActionCard.play decrements actions once and Game.action_phase
decrements a second time after play returns, so the Village iteration
returns the player completely unchanged: actions ends at 1, not at the
claimed (1 - 1) + 2 = 2. -/
theorem claim1_action_play_consumes_two_actions :
    c1player.actions = 1
    ∧ action_phase_iter villageCard c1player = Except.ok c1player
    ∧ ((1 : Int) - 1) + 2 = 2 := ⟨rfl, rfl, by decide⟩

/-- Claim C2, counterexample: the claim says buy_card requires
buys ≥ 1 and decrements buys.  Player.buy_card never looks at buys:
with buys = 0 and money = 3 the purchase of a Silver (cost 3) succeeds,
pays the cost, moves the card to the discard pile, and leaves buys at
0 (neither required nor decremented). -/
theorem claim2_buy_card_ignores_buys_counter :
    c2player.buys = 0
    ∧ buy_card c2player silverCard c2supply =
        some (⟨"Eve", [], [], [silverCard], 1, 0, 0⟩, [("Silver", [])]) :=
  ⟨rfl, rfl⟩

/-- Claim C2, amended: Player.buy_card requires only money ≥ cost and a
nonempty supply pile under the card's name; on success it subtracts the
cost from money and moves the last card of that pile to the player's
discard pile, leaving buys untouched (Game.buy_phase decrements buys
separately); when money < cost, or the pile is empty, it silently
performs no mutation and reports nothing — no IllegalPurchase exists
anywhere in the code. -/
theorem claim2_buy_card_amended (p : Player) (c : Card) (s : Supply)
    (pile : List Card) (hlook : supplyLookup s c.name = some pile) :
    (∀ lastc, c.cost ≤ p.money → pile.getLast? = some lastc →
      buy_card p c s =
        some (⟨p.name, p.deck, p.hand, p.discard_pile ++ [lastc],
               p.actions, p.money - c.cost, p.buys⟩,
              supplyUpdate s c.name pile.dropLast))
    ∧ (p.money < c.cost → buy_card p c s = some (p, s))
    ∧ (pile = [] → buy_card p c s = some (p, s)) := by
  refine ⟨?_, ?_, ?_⟩
  · intro lastc hcost hlast
    unfold buy_card
    rw [if_pos hcost, hlook]
    simp only [hlast]
  · intro h
    unfold buy_card
    rw [if_neg (by omega)]
  · intro h
    subst h
    unfold buy_card
    by_cases hcost : c.cost ≤ p.money
    · rw [if_pos hcost, hlook]
      rfl
    · rw [if_neg hcost]

/-- Claim C2, amended-theorem witness: the amended success case at a
concrete input — money = 3 buys a Silver costing 3 from a one-card
pile. -/
theorem claim2_buy_card_amended_witness :
    buy_card c2player silverCard c2supply =
      some (⟨"Eve", [], [], [silverCard], 1, 0, 0⟩, [("Silver", [])]) :=
  (claim2_buy_card_amended c2player silverCard c2supply [silverCard]
      rfl).1 silverCard (by decide) rfl

/-- Claim C3: the claim says drawing moves the top card of a nonempty
deck to the hand (with a reshuffle of the discard pile when the deck is
empty).  Player.draw_card's body is `pass`: with a card on the deck and
an empty hand, the call changes nothing at all — no card reaches the
hand and the deck keeps its card. -/
theorem claim3_draw_card_is_a_stub :
    c3player.deck = [copperCard] ∧ c3player.hand = []
    ∧ draw_card c3player = c3player := ⟨rfl, rfl, rfl⟩

/-- Claim C4: the claim (and the spec's Cleanup scenario) says that with
hand 5, discard 2, deck 1, cleanup ends with hand size 5.  The code
discards the hand and resets the counters, but its five
`player.draw_card()` calls are stubs, so the hand ends empty: final
state is deck 1, hand 0, discard 7 instead of deck 3, hand 5,
discard 0. -/
theorem claim4_cleanup_leaves_empty_hand :
    cleanup_phase c4player =
      ⟨"Dana", [copperCard], [], [silverCard, silverCard] ++ c4hand, 1, 0, 1⟩
    ∧ (cleanup_phase c4player).hand.length = 0
    ∧ c4player.deck.length + c4player.discard_pile.length +
        c4player.hand.length = 8 := ⟨rfl, rfl, rfl⟩

/-- Claim C5: the claim says actions, buys and coins stay ≥ 0 at every
point of a turn.  Playing a Smithy from actions = 1 refutes it:
ActionCard.play lowers actions to 0, the Smithy effect grants no
actions, and Game.action_phase then decrements again, so the phase
terminates with actions = -1. -/
theorem claim5_actions_can_go_negative :
    action_phase_loop 2 c5player =
      some (Except.ok ⟨"Bob", [], [smithyCard], [], -1, 0, 1⟩)
    ∧ ((-1 : Int) < 0) := ⟨rfl, by decide⟩

/-- Claim C6: the claim (the spec's Village scenario) says playing
Village with actions = 1 ends with actions = 2, hand one card larger,
and Village moved to the play-area.  In the code the draw is a stub and
nothing ever removes the played card from the hand (class Player has no
play-area zone at all), so Village.play leaves the hand exactly
[Village] and the deck untouched; and the enclosing action-phase
iteration then decrements again, ending at actions = 1, not 2. -/
theorem claim6_village_scenario_fails :
    card_play villageCard c6player =
      Except.ok ⟨"Ann", [copperCard], [villageCard], [], 2, 0, 1⟩
    ∧ action_phase_iter villageCard c6player =
      Except.ok ⟨"Ann", [copperCard], [villageCard], [], 1, 0, 1⟩
    ∧ c6player.hand = [villageCard] := ⟨rfl, rfl, rfl⟩

/-- Claim C7: the claim says the game checks the end condition after
every full turn and terminates when a top-tier Victory pile (or three
piles) is empty.  Game.play_round contains no such check and class Game
records no game-over state: on a game whose every supply pile is
already empty — a position the claim says must terminate the match —
play_round simply runs the phases and aborts with the Buy-phase
TypeError, exactly as it does on the full starting supply. -/
theorem claim7_no_end_of_game_check :
    (c7game.supply.all fun kv => kv.2.isEmpty)
    ∧ play_round 1 c7game = some (Except.error PyError.typeError)
    ∧ play_round 1 c7fullGame = some (Except.error PyError.typeError) :=
  ⟨rfl, rfl, rfl⟩

/-- Claim C8, counterexample: the claim says setup leaves every player
with a hand of 5.  With the identity permutation as the shuffle (one of
the permutations random.shuffle can produce), setup_game on a fresh
two-player game leaves both hands empty: Game.setup_game deals and
shuffles decks but never draws. -/
theorem claim8_setup_draws_no_hand :
    (setup_game id c8game).players.map (fun p => p.hand.length) = [0, 0]
    ∧ (0 : Nat) ≠ 5 := ⟨rfl, by decide⟩

/-- Claim C8, amended: after setup_game every player's deck holds
exactly 7 Copper and 3 Estate (10 cards, in the order given by the
shuffle permutation), and every player's hand is empty — no initial
hand of 5 is drawn.  Stated for any shuffle that permutes its input,
over a game of freshly constructed players. -/
theorem claim8_setup_amended (sh : List Card → List Card)
    (hsh : ∀ l, (sh l).Perm l) (names : List String) (n : String) :
    (setup_game sh ⟨names.map mkPlayer, [], 0⟩).players =
      names.map (fun m => setup_player sh (mkPlayer m))
    ∧ (setup_player sh (mkPlayer n)).deck.count copperCard = 7
    ∧ (setup_player sh (mkPlayer n)).deck.count estateCard = 3
    ∧ (setup_player sh (mkPlayer n)).deck.length = 10
    ∧ (setup_player sh (mkPlayer n)).hand = [] := by
  have hd : (setup_player sh (mkPlayer n)).deck =
      sh (List.replicate 7 copperCard ++ List.replicate 3 estateCard) := rfl
  have hperm := hsh (List.replicate 7 copperCard ++ List.replicate 3 estateCard)
  refine ⟨?_, ?_, ?_, ?_, rfl⟩
  · simp [setup_game, List.map_map]
  · rw [hd, hperm.count_eq]
    decide
  · rw [hd, hperm.count_eq]
    decide
  · rw [hd, hperm.length_eq]
    decide

/-- Claim C8, amended-theorem witness: the identity shuffle on a
two-player game, checked for the player named "Alice". -/
theorem claim8_setup_amended_witness :
    (setup_game id ⟨["Alice", "Bob"].map mkPlayer, [], 0⟩).players =
      ["Alice", "Bob"].map (fun m => setup_player id (mkPlayer m))
    ∧ (setup_player id (mkPlayer "Alice")).deck.count copperCard = 7
    ∧ (setup_player id (mkPlayer "Alice")).deck.count estateCard = 3
    ∧ (setup_player id (mkPlayer "Alice")).deck.length = 10
    ∧ (setup_player id (mkPlayer "Alice")).hand = [] :=
  claim8_setup_amended id (fun l => List.Perm.refl l) ["Alice", "Bob"] "Alice"

/-- Claim C9: whenever Game.buy_phase is entered with buys ≥ 1, its very
first iteration calls `player.choose_purchase()` without the `game`
argument that Player.choose_purchase requires, so the phase raises
TypeError instead of completing a purchase or passing. -/
theorem claim9_buy_phase_raises_type_error (p : Player) (s : Supply)
    (h : 1 ≤ p.buys) :
    buy_phase p s = Except.error PyError.typeError := by
  have h2 : p.buys > 0 := h
  unfold buy_phase
  generalize p.buys.toNat = k
  show buy_phase_loop (Nat.succ k) p s = _
  rw [buy_phase_loop]
  rw [if_pos h2]
  rfl

/-- Claim C9, witness: a concrete player with buys = 1 over a nonempty
supply. -/
theorem claim9_buy_phase_raises_type_error_witness :
    buy_phase c9player c9supply = Except.error PyError.typeError :=
  claim9_buy_phase_raises_type_error c9player c9supply (by decide)

/-- Claim C10: playing any TreasureCard first evaluates
`game.can_play_treasure`, an attribute class Game never defines, so
TreasureCard.play raises AttributeError for every player and never
reaches the `player.money += self.value` line. -/
theorem claim10_treasure_play_raises_attribute_error
    (n : String) (cost value : Int) (p : Player) :
    card_play (Card.treasure n cost value) p =
      Except.error PyError.attributeError := rfl

end Dominion
